import Mathlib

/-!
Verification of hnarchive (voussoir/hnarchive, src/hnarchive.py).

This file gives a shallow embedding of the core of hnarchive: the
merge-upsert persistence (`insert_item`, `insert_items`), the tail-follow
state machine (`livestream`), the catch-up loop (`update_argparse`), the
fetch/retry engine (`get`, `get_item`) and the backoff schedule, and
proves claims of the specification against it.

Conventions:
- A stored row (SQLite row of the `items` table) is `Row`; the store is a
  `List Row` looked up by primary key with `select_item`.
- Incoming JSON item dictionaries are `ItemData`; a key that the dictionary
  may omit is an `Option` field (`none` = key absent; the upstream never
  sends a key with a null value, it omits the key).
- Machine time (`time.time()`) is passed explicitly as a parameter.
-/

namespace hnarchive

/-- An incoming item dictionary from the API, as consumed by
`insert_item(data)`.  `id`, `type` and `time` are accessed with `data[...]`
in the source so they are required; every other key is read with
`data.get(...)` so it is optional (`none` = key absent). -/
structure ItemData where
  id : Nat
  type : String
  time : Int
  deleted : Option Bool := none
  by_ : Option String := none
  text : Option String := none
  dead : Option Bool := none
  parent : Option Nat := none
  poll : Option Nat := none
  url : Option String := none
  score : Option Int := none
  title : Option String := none
  descendants : Option Int := none
deriving DecidableEq, Repr

/-- One row of the `items` table. -/
structure Row where
  id : Nat
  deleted : Bool
  type : String
  author : Option String
  time : Int
  text : Option String
  dead : Bool
  parent : Option Nat
  poll : Option Nat
  url : Option String
  score : Option Int
  title : Option String
  descendants : Option Int
  retrieved : Int
deriving DecidableEq, Repr

/-- The query `SELECT * FROM items WHERE id == ?` : first row of the store whose id
matches. -/
def select_item (store : List Row) (id : Nat) : Option Row :=
  store.find? (fun r => r.id == id)

/-- The statement `UPDATE items SET ... WHERE id == ?` : replace the rows whose id
matches; the primary key constraint makes it at most one. -/
def update_row (store : List Row) (row : Row) : List Row :=
  store.map (fun r => if r.id == row.id then row else r)

/-- Python `data.get(key, default)` on an optional key. -/
def pyGet {α : Type} (field : Option α) (default : Option α) : Option α :=
  match field with
  | some v => some v
  | none => default

/-- The upsert `insert_item(data)` at machine time `retrieved`.  Returns the new
store, the row that was written, and `is_new`. -/
def insert_item (store : List Row) (data : ItemData) (retrieved : Int) :
    List Row × Row × Bool :=
  match select_item store data.id with
  | none =>
    let row : Row :=
      { id := data.id
        deleted := data.deleted.getD false
        type := data.type
        author := pyGet data.by_ none
        time := data.time
        text := pyGet data.text none
        dead := data.dead.getD false
        parent := pyGet data.parent none
        poll := pyGet data.poll none
        url := pyGet data.url none
        score := pyGet data.score none
        title := pyGet data.title none
        descendants := pyGet data.descendants none
        retrieved := retrieved }
    (row :: store, row, true)
  | some existing =>
    let row : Row :=
      { id := data.id
        deleted := data.deleted.getD false
        type := data.type
        author := pyGet data.by_ existing.author
        time := data.time
        text := pyGet data.text existing.text
        dead := data.dead.getD false
        parent := pyGet data.parent none
        poll := pyGet data.poll existing.poll
        url := pyGet data.url existing.url
        score := pyGet data.score existing.score
        title := pyGet data.title existing.title
        descendants := pyGet data.descendants none
        retrieved := retrieved }
    (update_row store row, row, false)

/-- writtenRow s d t : the row `insert_item` writes. -/
def writtenRow (store : List Row) (data : ItemData) (retrieved : Int) : Row :=
  (insert_item store data retrieved).2.1

/-- Python truthiness of `x or d` for an optional integer `x`
(`select_latest_id() or 1` in the source): `None` and `0` are falsy. -/
def pyOrNat (x : Option Nat) (d : Nat) : Nat :=
  match x with
  | none => d
  | some v => if v == 0 then d else v

/-- The query `SELECT id FROM items ORDER BY id DESC LIMIT 1` : the greatest stored
id, or `none` on an empty store. -/
def select_latest_id (store : List Row) : Option Nat :=
  (store.map Row.id).max?

/-- The initial cursor of `livestream()`: `id = select_latest_id() or 1`. -/
def livestream_init (store : List Row) : Nat :=
  pyOrNat (select_latest_id store) 1

/-- The mutable state of the `livestream()` loop: the cursor `id`, the
consecutive-absence counter `missed_loops`, and the position of the linear
backoff timer (number of `next()` calls minus `rewind`s; the delay values
live in the external backoff library and are not needed by the claims). -/
structure TailState where
  cursor : Nat
  missStreak : Nat
  boPos : Nat
deriving DecidableEq, Repr

/-- The observable outcome of one iteration of the `livestream()` loop
body: the successor state, the item yielded (if any), whether the
iteration slept, and whether `get_latest_id()` was called. -/
structure TailStep where
  state : TailState
  emitted : Option ItemData
  slept : Bool
  probed : Bool
deriving DecidableEq, Repr

/-- One iteration of the `livestream()` loop body.  `fetched` is the
result of `get_item(id)` (`none` = absent), `latest` the value
`get_latest_id()` would return if called this iteration. -/
def livestream_step (s : TailState) (fetched : Option ItemData) (latest : Nat) :
    TailStep :=
  match fetched with
  | some item =>
    { state := { cursor := s.cursor + 1, missStreak := 0, boPos := s.boPos - 2 }
      emitted := some item
      slept := false
      probed := false }
  | none =>
    let m := s.missStreak + 1
    if m % 5 == 0 then
      if latest > s.cursor + 50 then
        { state := { cursor := s.cursor + 1, missStreak := m, boPos := s.boPos }
          emitted := none
          slept := false
          probed := true }
      else
        { state := { cursor := s.cursor, missStreak := m, boPos := s.boPos + 1 }
          emitted := none
          slept := true
          probed := true }
    else
      { state := { cursor := s.cursor, missStreak := m, boPos := s.boPos + 1 }
        emitted := none
        slept := true
        probed := false }

/-- Python `range(lower, upper+1)` as a list: the closed interval
`[lower, upper]`, empty when `upper < lower`. -/
def crawl_interval (lower upper : Nat) : List Nat :=
  List.range' lower (upper + 1 - lower)

/-- One iteration of the `update_argparse` catch-up loop:
`lower = select_latest_id() or 1`, `upper = get_latest_id()`; break when
`lower == upper`, otherwise crawl `range(lower, upper+1)`.  Returns
`none` on break, `some ids` for the ids crawled this round. -/
def update_step (store_max : Option Nat) (latest : Nat) : Option (List Nat) :=
  let lower := pyOrNat store_max 1
  if lower == latest then none
  else some (crawl_interval lower latest)

/-- Modelled from the spec: the catch-up interval section 4.6 describes,
namely max(stored id)+1 up to latest_id (1 when the store is empty),
written from the spec's words for comparison with `update_step`. -/
def spec_catchup_interval (store_max : Option Nat) (latest : Nat) : List Nat :=
  let lower := match store_max with
    | none => 1
    | some m => m + 1
  crawl_interval lower latest

/-- The ticker loop of `insert_items`: starting from ticker `t` and `c`
commits already issued, process the items; for each one,
`ticker = (ticker + 1) % commit_period` and commit when the ticker is 0.
Returns the final ticker and commit count. -/
def insert_items_from {α : Type} (K : Nat) (t c : Nat) : List α → Nat × Nat
  | [] => (t, c)
  | _ :: rest =>
    insert_items_from K ((t + 1) % K)
      (if (t + 1) % K == 0 then c + 1 else c) rest

/-- Total commits of an uninterrupted `insert_items(items, K)` run: the
commits of the ticker loop plus the unconditional final commit. -/
def insert_items_commits {α : Type} (K : Nat) (items : List α) : Nat :=
  (insert_items_from K 0 0 items).2 + 1

/-- Outcome of one `ctrlc_commit`-wrapped run driving `insert_items`:
total commits issued, the value returned to the shell, and how many of
the processed items were covered by a commit (durably persisted). -/
structure RunOutcome where
  commits : Nat
  exitCode : Nat
  persisted : Nat
deriving DecidableEq, Repr

/-- A `ctrlc_commit`-wrapped run of `insert_items(items, K)`.
`interruptAfter = none` : the stream ends normally and the wrapped
function returns 0.  `interruptAfter = some j` : KeyboardInterrupt fires
while the j+1-th item is being produced, so the ticker loop has processed
exactly the first j items; the wrapper commits once more and returns 1.
In both paths every processed item precedes the last commit, so all of
them are persisted. -/
def run_insert_items {α : Type} (K : Nat) (items : List α)
    (interruptAfter : Option Nat) : RunOutcome :=
  match interruptAfter with
  | none =>
    { commits := insert_items_commits K items
      exitCode := 0
      persisted := items.length }
  | some j =>
    { commits := (insert_items_from K 0 0 (items.take j)).2 + 1
      exitCode := 1
      persisted := (items.take j).length }

/-- Modelled from the spec: voussoirkit's `backoff.Quadratic` (an external
library, not in this repository).  The spec gives
delay(n) = clamp(a·n² + b·n + c, max); delays are exact rationals here. -/
def quadratic_delay (a b c mx : ℚ) (n : Nat) : ℚ :=
  min (a * (n : ℚ) ^ 2 + b * (n : ℚ) + c) mx

/-- The schedule `get` instantiates: `backoff.Quadratic(a=0.2, b=0, c=1,
max=10)`; `get_backoff n` is the delay of the n-th `next()` call. -/
def get_backoff (n : Nat) : ℚ :=
  quadratic_delay (1 / 5) 0 1 10 n

/-- The raw JSON object returned for an item id: `time` is `none` when
the object lacks the `time` key (the upstream's malformed placeholder). -/
structure RawItem where
  id : Nat
  time : Option Int
deriving DecidableEq, Repr

/-- What one HTTP attempt inside `get` does: a response (whose parsed
body is `none` for JSON null), one of the four exception types the
`except` clause catches, or any other client error. -/
inductive AttemptOutcome where
  | success (body : Option RawItem)
  | http429
  | http5xx
  | connectionError
  | readTimeout
  | otherClientError
deriving DecidableEq, Repr

/-- The four outcomes `get` catches and retries. -/
def isRetryable (o : AttemptOutcome) : Bool :=
  match o with
  | .http429 => true
  | .http5xx => true
  | .connectionError => true
  | .readTimeout => true
  | _ => false

/-- How a `get` call ends: a response body, a client error raised out of
the loop, or the RuntimeError after the budget is exhausted. -/
inductive GetResult where
  | ok (body : Option RawItem)
  | raisedClientError
  | ranOutOfRetries
deriving DecidableEq

/-- A finished `get` call: its result and the backoff sleeps it
performed, in order. -/
structure GetRun where
  result : GetResult
  sleeps : List ℚ
deriving DecidableEq

/-- The `while retries > 0` loop of `get`, at the k-th attempt (k
attempts already failed retryably, so the backoff is about to hand out
its k+1-th delay).  `oracle k` is what attempt k does. -/
def get_from (oracle : Nat → AttemptOutcome) : Nat → Nat → GetRun
  | 0, _ => { result := .ranOutOfRetries, sleeps := [] }
  | retries + 1, k =>
    match oracle k with
    | .success body => { result := .ok body, sleeps := [] }
    | .otherClientError => { result := .raisedClientError, sleeps := [] }
    | _ =>
      let rest := get_from oracle retries (k + 1)
      { result := rest.result, sleeps := get_backoff (k + 1) :: rest.sleeps }

/-- The fetch `get(url, retries)` against a network oracle. -/
def get (oracle : Nat → AttemptOutcome) (retries : Nat) : GetRun :=
  get_from oracle retries 0

/-- How a `get_item` call ends: the item, semantic absence (`None`), or
one of `get`'s two exceptions propagating. -/
inductive ItemResult where
  | absent
  | item (r : RawItem)
  | raisedClientError
  | ranOutOfRetries
deriving DecidableEq

/-- The fetch `get_item(id)`: `get` with a retry budget of 8, then `None` for a
null body or a body missing the `time` key.  Also returns the sleeps of
the underlying `get`. -/
def get_item (oracle : Nat → AttemptOutcome) : ItemResult × List ℚ :=
  let run := get oracle 8
  match run.result with
  | .ok none => (.absent, run.sleeps)
  | .ok (some r) =>
    match r.time with
    | none => (.absent, run.sleeps)
    | some _ => (.item r, run.sleeps)
  | .raisedClientError => (.raisedClientError, run.sleeps)
  | .ranOutOfRetries => (.ranOutOfRetries, run.sleeps)

/-! ## Helper lemmas and concrete fixtures -/

theorem pyGet_of_none {α : Type} {x d : Option α} (h : x = none) : pyGet x d = d := by
  rw [h]
  rfl

theorem pyGet_of_ne {α : Type} {x d : Option α} (h : x ≠ none) : pyGet x d = x := by
  cases x with
  | none => exact absurd rfl h
  | some v => rfl

theorem pyGet_pyGet {α : Type} (x d : Option α) : pyGet x (pyGet x d) = pyGet x d := by
  cases x <;> rfl

theorem writtenRow_id (store : List Row) (data : ItemData) (t : Int) :
    (writtenRow store data t).id = data.id := by
  unfold writtenRow insert_item
  cases select_item store data.id <;> rfl

theorem select_item_cons_self (row : Row) (store : List Row) :
    select_item (row :: store) row.id = some row :=
  List.find?_cons_of_pos _ (by simp)

/-- A stored row used as a concrete test fixture. -/
def exRow : Row :=
  { id := 5
    deleted := false
    type := "story"
    author := some "alice"
    time := 100
    text := some "old text"
    dead := false
    parent := some 2
    poll := some 3
    url := some "http://example.com"
    score := some 10
    title := some "old title"
    descendants := some 7
    retrieved := 50 }

/-- A one-row store holding `exRow`. -/
def exStore : List Row := [exRow]

/-- An incoming fetch for id 5 that carries only the mandatory keys
(the spec's upsert with id 5, type story, time 100 and no other key). -/
def bareData : ItemData := { id := 5, type := "story", time := 100 }

/-! ## C1 -/

/-- C1: on an upsert onto an existing row, author, text, poll, url,
score and title are overwritten only when the incoming fetch explicitly
includes them and otherwise keep their stored values; descendants is set
to absent whenever the incoming fetch omits it; retrieved is refreshed
to the call's current time. -/
theorem C1_merge_update_rules (store : List Row) (data : ItemData) (t : Int)
    (ex : Row) (hex : select_item store data.id = some ex) :
    (data.by_ = none → (writtenRow store data t).author = ex.author) ∧
    (data.by_ ≠ none → (writtenRow store data t).author = data.by_) ∧
    (data.text = none → (writtenRow store data t).text = ex.text) ∧
    (data.text ≠ none → (writtenRow store data t).text = data.text) ∧
    (data.poll = none → (writtenRow store data t).poll = ex.poll) ∧
    (data.poll ≠ none → (writtenRow store data t).poll = data.poll) ∧
    (data.url = none → (writtenRow store data t).url = ex.url) ∧
    (data.url ≠ none → (writtenRow store data t).url = data.url) ∧
    (data.score = none → (writtenRow store data t).score = ex.score) ∧
    (data.score ≠ none → (writtenRow store data t).score = data.score) ∧
    (data.title = none → (writtenRow store data t).title = ex.title) ∧
    (data.title ≠ none → (writtenRow store data t).title = data.title) ∧
    (data.descendants = none → (writtenRow store data t).descendants = none) ∧
    (writtenRow store data t).retrieved = t := by
  have hw : writtenRow store data t =
      { id := data.id
        deleted := data.deleted.getD false
        type := data.type
        author := pyGet data.by_ ex.author
        time := data.time
        text := pyGet data.text ex.text
        dead := data.dead.getD false
        parent := pyGet data.parent none
        poll := pyGet data.poll ex.poll
        url := pyGet data.url ex.url
        score := pyGet data.score ex.score
        title := pyGet data.title ex.title
        descendants := pyGet data.descendants none
        retrieved := t } := by
    unfold writtenRow insert_item
    rw [hex]
  rw [hw]
  exact ⟨fun h => pyGet_of_none h, fun h => pyGet_of_ne h,
    fun h => pyGet_of_none h, fun h => pyGet_of_ne h,
    fun h => pyGet_of_none h, fun h => pyGet_of_ne h,
    fun h => pyGet_of_none h, fun h => pyGet_of_ne h,
    fun h => pyGet_of_none h, fun h => pyGet_of_ne h,
    fun h => pyGet_of_none h, fun h => pyGet_of_ne h,
    fun h => pyGet_of_none h, rfl⟩

/-- C1 witness: the spec's example — a second fetch of id 5 carrying no
optional key keeps score 10 (and author, etc.), clears descendants
(previously 7) and refreshes retrieved. -/
theorem C1_merge_update_rules_witness :
    select_item exStore bareData.id = some exRow ∧
    (writtenRow exStore bareData 200).score = some 10 ∧
    (writtenRow exStore bareData 200).author = some "alice" ∧
    (writtenRow exStore bareData 200).descendants = none ∧
    (writtenRow exStore bareData 200).retrieved = 200 := by
  have hex : select_item exStore bareData.id = some exRow := by decide
  obtain ⟨h1, _, _, _, _, _, _, _, h9, _, _, _, h13, h14⟩ :=
    C1_merge_update_rules exStore bareData 200 exRow hex
  exact ⟨hex, h9 rfl, h1 rfl, h13 rfl, h14⟩

/-! ## C10 -/

/-- C10: on an upsert onto an existing row whose incoming fetch omits
parent, the stored parent is overwritten to absent, like descendants and
unlike the retained fields. -/
theorem C10_parent_cleared (store : List Row) (data : ItemData) (t : Int)
    (ex : Row) (hex : select_item store data.id = some ex)
    (hp : data.parent = none) :
    (writtenRow store data t).parent = none := by
  unfold writtenRow insert_item
  rw [hex]
  simp [pyGet, hp]

/-- C10 witness: the stored row has parent 2, the incoming fetch has no
parent key, and the written row's parent is absent. -/
theorem C10_parent_cleared_witness :
    select_item exStore bareData.id = some exRow ∧
    exRow.parent = some 2 ∧ bareData.parent = none ∧
    (writtenRow exStore bareData 200).parent = none := by
  refine ⟨by decide, by decide, rfl, ?_⟩
  exact C10_parent_cleared exStore bareData 200 exRow (by decide) rfl

/-! ## C6 -/

/-- An incoming fetch of id 5 whose time differs from the stored one. -/
def timeBumpData : ItemData := { id := 5, type := "story", time := 200 }

/-- C6 counterexample: the stored row for id 5 has time 100, an upsert
whose incoming time is 200 rewrites the stored time to 200 — the time
field is not immutable across upserts. -/
theorem C6_counterexample :
    select_item exStore timeBumpData.id = some exRow ∧
    exRow.time = 100 ∧
    (writtenRow exStore timeBumpData 300).time = 200 := by
  decide

/-- C6 amended: every upsert (insert or update) writes the incoming time
value into the row, so the stored time stays constant only as long as
the upstream keeps reporting the same publication time. -/
theorem C6_amended_time_overwritten (store : List Row) (data : ItemData) (t : Int) :
    (writtenRow store data t).time = data.time := by
  unfold writtenRow insert_item
  cases select_item store data.id <;> rfl

/-! ## C3 -/

/-- C3 counterexample: with a store whose highest id is 5, the livestream
cursor is initialized to 5 itself — not to one past it (6). -/
theorem C3_counterexample :
    select_latest_id exStore = some 5 ∧
    livestream_init exStore = 5 ∧
    livestream_init exStore ≠ 6 := by
  decide

/-- C3 amended: the livestream cursor is initialized to the highest id
currently in the store (re-examining it), or to 1 when the store is
empty (or the highest id is 0, by Python truthiness). -/
theorem C3_amended_init (store : List Row) (m : Nat) :
    (select_latest_id store = none → livestream_init store = 1) ∧
    (select_latest_id store = some m → m ≠ 0 → livestream_init store = m) := by
  unfold livestream_init pyOrNat
  constructor
  · intro h
    rw [h]
  · intro h hm
    rw [h]
    simp [hm]

/-- C3 amended witness: the empty store starts the cursor at 1; the
store whose highest id is 5 starts it at 5. -/
theorem C3_amended_init_witness :
    livestream_init [] = 1 ∧ livestream_init exStore = 5 := by
  exact ⟨(C3_amended_init [] 0).1 (by decide),
    (C3_amended_init exStore 5).2 (by decide) (by decide)⟩

/-! ## C2 -/

/-- C2: in the livestream loop, an absent fetch increments the miss
counter; the latest-id probe runs exactly when the incremented counter
is a multiple of 5; when the probed latest id strictly exceeds
cursor + 50 the cursor advances by exactly 1 with no sleep; in every
other absent case the cursor is unchanged and the iteration sleeps,
advancing the backoff timer. -/
theorem C2_tail_absent_step (s : TailState) (latest : Nat) :
    (livestream_step s none latest).state.missStreak = s.missStreak + 1 ∧
    ((livestream_step s none latest).probed = true ↔ (s.missStreak + 1) % 5 = 0) ∧
    ((s.missStreak + 1) % 5 = 0 → latest > s.cursor + 50 →
      (livestream_step s none latest).state.cursor = s.cursor + 1 ∧
      (livestream_step s none latest).slept = false) ∧
    (¬((s.missStreak + 1) % 5 = 0 ∧ latest > s.cursor + 50) →
      (livestream_step s none latest).state.cursor = s.cursor ∧
      (livestream_step s none latest).slept = true ∧
      (livestream_step s none latest).state.boPos = s.boPos + 1) := by
  by_cases h5 : (s.missStreak + 1) % 5 = 0 <;>
    by_cases hlat : latest > s.cursor + 50 <;>
    simp [livestream_step, h5, hlat]

/-- C2 witness: the spec's example — at cursor 100 with four prior
misses, an absent fetch makes the streak 5; a probe of 160 (> 150)
advances the cursor to 101 without sleeping, a probe of 130 leaves it at
100 and sleeps. -/
theorem C2_tail_absent_step_witness :
    (livestream_step ⟨100, 4, 0⟩ none 160).probed = true ∧
    (livestream_step ⟨100, 4, 0⟩ none 160).state.cursor = 101 ∧
    (livestream_step ⟨100, 4, 0⟩ none 160).slept = false ∧
    (livestream_step ⟨100, 4, 0⟩ none 130).state.cursor = 100 ∧
    (livestream_step ⟨100, 4, 0⟩ none 130).slept = true := by
  have h160 := C2_tail_absent_step ⟨100, 4, 0⟩ 160
  have h130 := C2_tail_absent_step ⟨100, 4, 0⟩ 130
  have hadv := h160.2.2.1 (by decide) (by decide)
  have hstay := h130.2.2.2 (by decide)
  exact ⟨h160.2.1.mpr (by decide), hadv.1, hadv.2, hstay.1, hstay.2.1⟩

/-! ## C4 -/

theorem crawl_interval_mem (a b i : Nat) :
    i ∈ crawl_interval a b ↔ (a ≤ i ∧ i ≤ b) := by
  unfold crawl_interval
  rw [List.mem_range'_1]
  omega

/-- C4 counterexample: with highest stored id 5 and latest id 6, the
catch-up iteration crawls [5, 6] — it re-includes the highest stored id
5, not the spec's interval [max+1, latest] = [6]. -/
theorem C4_counterexample :
    update_step (some 5) 6 = some [5, 6] ∧
    spec_catchup_interval (some 5) 6 = [6] ∧
    update_step (some 5) 6 ≠ some (spec_catchup_interval (some 5) 6) := by
  decide

/-- C4 amended: each catch-up iteration computes the closed interval
from the highest stored id itself (1 when the store is empty or its
highest id is 0) up to the probed latest id, crawls it, and terminates
exactly when that lower bound equals the latest id. -/
theorem C4_amended_catchup (store_max : Option Nat) (latest i : Nat) :
    (update_step store_max latest = none ↔ pyOrNat store_max 1 = latest) ∧
    (pyOrNat store_max 1 ≠ latest →
      update_step store_max latest
        = some (crawl_interval (pyOrNat store_max 1) latest)) ∧
    (i ∈ crawl_interval (pyOrNat store_max 1) latest
      ↔ (pyOrNat store_max 1 ≤ i ∧ i ≤ latest)) := by
  refine ⟨?_, ?_, crawl_interval_mem _ _ _⟩
  · unfold update_step
    by_cases h : pyOrNat store_max 1 = latest <;> simp [h]
  · intro h
    unfold update_step
    simp [h]

/-- C4 amended witness: with highest stored id 5 and latest 6 one round
crawls exactly \x7b5, 6\x7d; with latest 5 the loop breaks. -/
theorem C4_amended_catchup_witness :
    update_step (some 5) 6 = some (crawl_interval 5 6) ∧
    (5 ∈ crawl_interval 5 6) ∧
    update_step (some 5) 5 = none := by
  have h6 := C4_amended_catchup (some 5) 6 5
  have h5 := C4_amended_catchup (some 5) 5 0
  exact ⟨h6.2.1 (by decide), (h6.2.2).mpr (by decide), h5.1.mpr (by decide)⟩

/-! ## C5 -/

/-- The store after `insert_item`. -/
def insertedStore (store : List Row) (data : ItemData) (t : Int) : List Row :=
  (insert_item store data t).1

/-- The `is_new` flag `insert_item` returns. -/
def isNew (store : List Row) (data : ItemData) (t : Int) : Bool :=
  (insert_item store data t).2.2

theorem insert_item_new (store : List Row) (data : ItemData) (t : Int)
    (h : select_item store data.id = none) :
    insertedStore store data t = writtenRow store data t :: store := by
  unfold insertedStore writtenRow insert_item
  rw [h]

theorem insert_item_update (store : List Row) (data : ItemData) (t : Int)
    (ex : Row) (hex : select_item store data.id = some ex) :
    insertedStore store data t = update_row store (writtenRow store data t) := by
  unfold insertedStore writtenRow insert_item
  rw [hex]

theorem select_item_cons (row : Row) (store : List Row) (i : Nat)
    (h : row.id = i) : select_item (row :: store) i = some row := by
  subst h
  exact select_item_cons_self _ _

theorem writtenRow_update (store : List Row) (data : ItemData) (t : Int)
    (ex : Row) (hex : select_item store data.id = some ex) :
    writtenRow store data t =
      { id := data.id
        deleted := data.deleted.getD false
        type := data.type
        author := pyGet data.by_ ex.author
        time := data.time
        text := pyGet data.text ex.text
        dead := data.dead.getD false
        parent := pyGet data.parent none
        poll := pyGet data.poll ex.poll
        url := pyGet data.url ex.url
        score := pyGet data.score ex.score
        title := pyGet data.title ex.title
        descendants := pyGet data.descendants none
        retrieved := t } := by
  unfold writtenRow insert_item
  rw [hex]

theorem update_row_cons_eq (row1 row2 : Row) (store : List Row)
    (h1 : row1.id = row2.id) :
    update_row (row1 :: store) row2 = row2 :: update_row store row2 := by
  simp [update_row, h1]

/-- C5: upserting the same incoming fields twice is idempotent — is_new
is true on the first call and false on the second, and the second call
stores the same row apart from the refreshed retrieved time. -/
theorem C5_upsert_idempotent (store : List Row) (data : ItemData) (t1 t2 : Int)
    (h : select_item store data.id = none) :
    isNew store data t1 = true ∧
    isNew (insertedStore store data t1) data t2 = false ∧
    writtenRow (insertedStore store data t1) data t2
      = { writtenRow store data t1 with retrieved := t2 } ∧
    select_item (insertedStore (insertedStore store data t1) data t2) data.id
      = some { writtenRow store data t1 with retrieved := t2 } := by
  have hw1 : writtenRow store data t1 =
      { id := data.id
        deleted := data.deleted.getD false
        type := data.type
        author := pyGet data.by_ none
        time := data.time
        text := pyGet data.text none
        dead := data.dead.getD false
        parent := pyGet data.parent none
        poll := pyGet data.poll none
        url := pyGet data.url none
        score := pyGet data.score none
        title := pyGet data.title none
        descendants := pyGet data.descendants none
        retrieved := t1 } := by
    unfold writtenRow insert_item
    rw [h]
  have hs1 := insert_item_new store data t1 h
  have hex1 : select_item (insertedStore store data t1) data.id
      = some (writtenRow store data t1) := by
    rw [hs1]
    exact select_item_cons _ _ _ (writtenRow_id store data t1)
  have hnew1 : isNew store data t1 = true := by
    unfold isNew insert_item
    rw [h]
  have hnew2 : isNew (insertedStore store data t1) data t2 = false := by
    unfold isNew insert_item
    rw [hex1]
  have hw2 : writtenRow (insertedStore store data t1) data t2
      = { writtenRow store data t1 with retrieved := t2 } := by
    have hx := writtenRow_update (insertedStore store data t1) data t2 _ hex1
    rw [hx, hw1]
    simp [Row.mk.injEq, pyGet_pyGet]
  have hs2 := insert_item_update (insertedStore store data t1) data t2 _ hex1
  refine ⟨hnew1, hnew2, hw2, ?_⟩
  rw [hs2, hw2, hs1]
  rw [update_row_cons_eq _ _ _ (by simp [writtenRow_id])]
  exact select_item_cons _ _ _ (by simp [writtenRow_id])

/-- An incoming fetch for id 5 carrying a score, the spec's first
upsert example. -/
def scoreData : ItemData := { id := 5, type := "story", time := 100, score := some 10 }

/-- C5 witness: inserting the spec's item 5 twice into an empty store —
is_new true then false, and only retrieved changes. -/
theorem C5_upsert_idempotent_witness :
    select_item [] scoreData.id = none ∧
    isNew [] scoreData 100 = true ∧
    isNew (insertedStore [] scoreData 100) scoreData 150 = false ∧
    writtenRow (insertedStore [] scoreData 100) scoreData 150
      = { writtenRow [] scoreData 100 with retrieved := 150 } := by
  have h : select_item [] scoreData.id = none := rfl
  have main := C5_upsert_idempotent [] scoreData 100 150 h
  exact ⟨h, main.1, main.2.1, main.2.2.1⟩

/-! ## C7 -/

theorem insert_items_from_eq {α : Type} (K : Nat) (hK : 0 < K) (l : List α) :
    ∀ t c, t < K →
      insert_items_from K t c l = ((t + l.length) % K, c + (t + l.length) / K) := by
  induction l with
  | nil =>
    intro t c ht
    simp [insert_items_from, Nat.mod_eq_of_lt ht, Nat.div_eq_of_lt ht]
  | cons a l ih =>
    intro t c ht
    simp only [insert_items_from, List.length_cons]
    rw [ih _ _ (Nat.mod_lt _ hK)]
    have hlen : t + (l.length + 1) = (t + 1) + l.length := by omega
    rw [hlen]
    by_cases h : t + 1 = K
    · subst h
      rw [Nat.mod_self]
      simp only [beq_self_eq_true, if_true, Nat.zero_add]
      rw [Nat.add_mod_left, Nat.add_div_left _ (Nat.succ_pos t)]
      generalize l.length / (t + 1) = d
      simp only [Nat.succ_eq_add_one, Prod.mk.injEq, true_and]
      omega
    · have hlt : t + 1 < K := by omega
      rw [Nat.mod_eq_of_lt hlt]
      have hne : ((t + 1) == 0) = false := by simp
      rw [hne]
      simp

/-- C7: with commit period K, a commit is issued after every K processed
items and once more at stream end; an uninterrupted run returns 0, and a
run cancelled after j items still commits them (one extra commit from
the cancellation handler) and returns the distinguished value 1.  The
commit count is (number of processed items) / K plus the final one. -/
theorem C7_commit_schedule {α : Type} (K : Nat) (items : List α) (j : Nat)
    (hK : 0 < K) :
    run_insert_items K items none
      = { commits := items.length / K + 1
          exitCode := 0
          persisted := items.length } ∧
    run_insert_items K items (some j)
      = { commits := min j items.length / K + 1
          exitCode := 1
          persisted := min j items.length } := by
  constructor
  · simp only [run_insert_items, insert_items_commits]
    rw [insert_items_from_eq K hK items 0 0 hK]
    simp
  · simp only [run_insert_items]
    rw [insert_items_from_eq K hK (items.take j) 0 0 hK]
    simp [List.length_take]

set_option maxRecDepth 8000 in
/-- C7 witness: the spec's numbers — 450 items with commit period 200
uninterrupted give exactly 3 commits (after 200, after 400, final 50);
cancelling after 150 still persists those 150 and exits 1. -/
theorem C7_commit_schedule_witness :
    run_insert_items 200 (List.replicate 450 (0 : Nat)) none
      = { commits := 3, exitCode := 0, persisted := 450 } ∧
    run_insert_items 200 (List.replicate 450 (0 : Nat)) (some 150)
      = { commits := 1, exitCode := 1, persisted := 150 } := by
  have h := C7_commit_schedule 200 (List.replicate 450 (0 : Nat)) 150 (by decide)
  constructor
  · rw [h.1]
    decide
  · rw [h.2]
    decide

/-! ## C8 -/

theorem get_from_success (oracle : Nat → AttemptOutcome) (retries k : Nat)
    (b : Option RawItem) (h : oracle k = .success b) :
    get_from oracle (retries + 1) k = { result := .ok b, sleeps := [] } := by
  simp only [get_from]
  rw [h]

theorem get_from_fatal (oracle : Nat → AttemptOutcome) (retries k : Nat)
    (h : oracle k = .otherClientError) :
    get_from oracle (retries + 1) k
      = { result := .raisedClientError, sleeps := [] } := by
  simp only [get_from]
  rw [h]

theorem get_from_retryable (oracle : Nat → AttemptOutcome) (retries k : Nat)
    (h : isRetryable (oracle k) = true) :
    get_from oracle (retries + 1) k
      = { result := (get_from oracle retries (k + 1)).result
          sleeps := get_backoff (k + 1) :: (get_from oracle retries (k + 1)).sleeps } := by
  simp only [get_from]
  cases ho : oracle k with
  | success b => rw [ho] at h; simp [isRetryable] at h
  | otherClientError => rw [ho] at h; simp [isRetryable] at h
  | http429 => rfl
  | http5xx => rfl
  | connectionError => rfl
  | readTimeout => rfl

theorem get_from_all_retryable (oracle : Nat → AttemptOutcome)
    (h : ∀ k, isRetryable (oracle k) = true) (retries : Nat) :
    ∀ k, get_from oracle retries k
      = { result := .ranOutOfRetries
          sleeps := (List.range' (k + 1) retries).map get_backoff } := by
  induction retries with
  | zero => intro k; rfl
  | succ r ih =>
    intro k
    rw [get_from_retryable oracle r k (h k), ih (k + 1), List.range'_succ]
    rfl

theorem get_from_sleeps (oracle : Nat → AttemptOutcome) (retries : Nat) :
    ∀ k, (get_from oracle retries k).sleeps
      = (List.range' (k + 1) (get_from oracle retries k).sleeps.length).map
          get_backoff := by
  induction retries with
  | zero => intro k; rfl
  | succ r ih =>
    intro k
    cases ho : oracle k with
    | success b => rw [get_from_success oracle r k b ho]; rfl
    | otherClientError => rw [get_from_fatal oracle r k ho]; rfl
    | http429 =>
      rw [get_from_retryable oracle r k (by rw [ho]; rfl)]
      simp only [List.length_cons, List.range'_succ, List.map_cons]
      exact congrArg _ (ih (k + 1))
    | http5xx =>
      rw [get_from_retryable oracle r k (by rw [ho]; rfl)]
      simp only [List.length_cons, List.range'_succ, List.map_cons]
      exact congrArg _ (ih (k + 1))
    | connectionError =>
      rw [get_from_retryable oracle r k (by rw [ho]; rfl)]
      simp only [List.length_cons, List.range'_succ, List.map_cons]
      exact congrArg _ (ih (k + 1))
    | readTimeout =>
      rw [get_from_retryable oracle r k (by rw [ho]; rfl)]
      simp only [List.length_cons, List.range'_succ, List.map_cons]
      exact congrArg _ (ih (k + 1))

/-- C8: a null body or a body lacking the time key yields Absent at once
with no retry consumed and no backoff sleep; each of the four retryable
failures consumes one unit of budget and performs one backoff sleep; any
other client error is raised at once with no retry; after 8 retryable
failures the budget is exhausted and get_item ends in ranOutOfRetries, a
result distinct from Absent. -/
theorem C8_fetch_classification (oracle : Nat → AttemptOutcome)
    (b : Option RawItem) (r : RawItem) (n : Nat) :
    (oracle 0 = .success none → get_item oracle = (.absent, [])) ∧
    (oracle 0 = .success (some r) → r.time = none →
      get_item oracle = (.absent, [])) ∧
    (isRetryable (oracle 0) = true → oracle 1 = .success b →
      get oracle 8 = { result := .ok b, sleeps := [get_backoff 1] }) ∧
    (oracle 0 = .otherClientError →
      get oracle (n + 1) = { result := .raisedClientError, sleeps := [] }) ∧
    ((∀ k, isRetryable (oracle k) = true) →
      get_item oracle = (.ranOutOfRetries, (List.range' 1 8).map get_backoff)) ∧
    ItemResult.ranOutOfRetries ≠ ItemResult.absent := by
  refine ⟨?_, ?_, ?_, ?_, ?_, by simp⟩
  · intro h
    simp only [get_item, get]
    rw [show (8 : Nat) = 7 + 1 from rfl, get_from_success oracle 7 0 none h]
  · intro h ht
    simp only [get_item, get]
    rw [show (8 : Nat) = 7 + 1 from rfl, get_from_success oracle 7 0 (some r) h]
    simp [ht]
  · intro h1 h2
    unfold get
    rw [show (8 : Nat) = 7 + 1 from rfl, get_from_retryable oracle 7 0 h1,
      show (7 : Nat) = 6 + 1 from rfl, get_from_success oracle 6 1 b h2]
  · intro h
    unfold get
    rw [get_from_fatal oracle n 0 h]
  · intro h
    simp only [get_item, get]
    rw [get_from_all_retryable oracle h 8 0]

/-- A network that always answers with a null JSON body. -/
def nullOracle : Nat → AttemptOutcome := fun _ => .success none

/-- A network that always answers with the API's malformed placeholder,
an object lacking the time key (the id 78692 example of the source). -/
def noTimeOracle : Nat → AttemptOutcome := fun _ => .success (some ⟨78692, none⟩)

/-- A network whose first attempt drops the connection and whose second
answers a full item. -/
def flakyOracle : Nat → AttemptOutcome :=
  fun k => if k == 0 then .connectionError else .success (some ⟨1, some 7⟩)

/-- A network that always answers 429. -/
def alwaysBusyOracle : Nat → AttemptOutcome := fun _ => .http429

/-- A network that always answers a non-retryable client error. -/
def fatalOracle : Nat → AttemptOutcome := fun _ => .otherClientError

/-- C8 witness: the classification at five concrete networks. -/
theorem C8_fetch_classification_witness :
    get_item nullOracle = (ItemResult.absent, []) ∧
    get_item noTimeOracle = (ItemResult.absent, []) ∧
    get flakyOracle 8
      = { result := GetResult.ok (some ⟨1, some 7⟩), sleeps := [get_backoff 1] } ∧
    get fatalOracle 1 = { result := GetResult.raisedClientError, sleeps := [] } ∧
    get_item alwaysBusyOracle
      = (ItemResult.ranOutOfRetries, (List.range' 1 8).map get_backoff) := by
  refine ⟨?_, ?_, ?_, ?_, ?_⟩
  · exact (C8_fetch_classification nullOracle none ⟨78692, none⟩ 0).1 rfl
  · exact (C8_fetch_classification noTimeOracle none ⟨78692, none⟩ 0).2.1 rfl rfl
  · exact (C8_fetch_classification flakyOracle (some ⟨1, some 7⟩) ⟨78692, none⟩ 0).2.2.1
      rfl rfl
  · exact (C8_fetch_classification fatalOracle none ⟨78692, none⟩ 0).2.2.2.1 rfl
  · exact (C8_fetch_classification alwaysBusyOracle none ⟨78692, none⟩ 0).2.2.2.2.1
      (fun k => rfl)

/-! ## C9 -/

/-- C9 counterexample: the third delay of the quadratic schedule
0.2·n² + 0·n + 1 clamped at 10 is 2.8 s (= 14/5), not the 2.6 s the
claim lists. -/
theorem C9_counterexample :
    get_backoff 3 = 14 / 5 ∧ get_backoff 3 ≠ 13 / 5 := by
  constructor <;> norm_num [get_backoff, quadratic_delay, min_def]

/-- C9 amended: the retry backoff follows the quadratic schedule
delay(n) = clamp(0.2·n² + 0·n + 1, 10) with successive delays 1.2 s,
1.8 s, 2.8 s, monotonically increasing, clamped at 10 seconds, and the
sleeps of any get call are exactly that schedule in order. -/
theorem C9_amended_backoff (oracle : Nat → AttemptOutcome) (retries a b : Nat)
    (hab : a ≤ b) :
    get_backoff 1 = 6 / 5 ∧ get_backoff 2 = 9 / 5 ∧ get_backoff 3 = 14 / 5 ∧
    get_backoff a ≤ get_backoff b ∧
    get_backoff b ≤ 10 ∧
    (get oracle retries).sleeps
      = (List.range' 1 (get oracle retries).sleeps.length).map get_backoff := by
  refine ⟨by norm_num [get_backoff, quadratic_delay, min_def],
    by norm_num [get_backoff, quadratic_delay, min_def],
    by norm_num [get_backoff, quadratic_delay, min_def], ?_, ?_, ?_⟩
  · unfold get_backoff quadratic_delay
    apply min_le_min _ le_rfl
    have hc : (a : ℚ) ≤ (b : ℚ) := Nat.cast_le.mpr hab
    have ha : (0 : ℚ) ≤ (a : ℚ) := Nat.cast_nonneg a
    nlinarith
  · exact min_le_right _ _
  · exact get_from_sleeps oracle retries 0

/-- C9 amended witness: the schedule values at the first delays, a
monotonicity instance, the clamp, and the sleeps of a concrete run. -/
theorem C9_amended_backoff_witness :
    get_backoff 1 = 6 / 5 ∧ get_backoff 2 = 9 / 5 ∧ get_backoff 3 = 14 / 5 ∧
    get_backoff 3 ≤ get_backoff 7 ∧ get_backoff 7 ≤ 10 ∧
    (get alwaysBusyOracle 2).sleeps
      = (List.range' 1 (get alwaysBusyOracle 2).sleeps.length).map get_backoff :=
  C9_amended_backoff alwaysBusyOracle 2 3 7 (by norm_num)

end hnarchive
